import Mathlib

/-
Verification development for the one-photon post-processing module
(fortran_output_analysis/onephoton/onephoton.py).

The Python source is shallowly embedded:
  * integers become Int (Nat for non-negative counters and column indices),
  * floating-point table entries become Rat (only their identity matters
    to the verified properties, never their arithmetic),
  * complex numbers re + i*im become pairs (re, im),
  * numpy 2-D tables become List (List Rat), rows outermost,
  * Python dicts become insertion-ordered association lists whose
    assignment operation replaces an existing binding in place,
  * Python exceptions (assert failures, numpy index errors) become
    Except with an explicit error datatype,
  * the filesystem is abstracted away: functions that in the source read a
    file from a path here take the parsed numeric content of that file as
    an argument (the raw-data loader is an external collaborator).
-/

namespace OnePhotonAnalysis

/-- Mirrors `IonisationPath.__init__`: stores the final-state kappa and the
column index of this final state in the raw data files.  The derived
presentation fields (l, j, name) are computed by helpers from the external
`common_utility` module and play no role in the verified properties, so they
are not carried here. -/
structure IonisationPath where
  kappa : Int
  column_index : Nat
deriving DecidableEq, Repr

/-- Mirrors the module-level function `final_kappas(hole_kappa, only_reachable)`:
with `mag = np.abs(hole_kappa)` and `sig = np.sign(hole_kappa)` it builds
`[sig * (mag - 1), -sig * mag, sig * (mag + 1)]`, and when `only_reachable`
is true filters out every occurrence of 0. -/
def final_kappas (hole_kappa : Int) (only_reachable : Bool) : List Int :=
  let mag : Int := |hole_kappa|
  let sig : Int := Int.sign hole_kappa
  let kappas : List Int := [sig * (mag - 1), -sig * mag, sig * (mag + 1)]
  if only_reachable then kappas.filter (fun kappa => kappa != 0) else kappas

/-- Mirrors `Channels.__add_ionisation_path`: walk the full candidate list
`final_kappas(kappa_hole, only_reachable=False)` with a running column index
starting at 0, and record an `IonisationPath` only for candidates that occur
in `final_kappas(kappa_hole, only_reachable=True)`; every candidate slot,
recorded or not, advances the column index.  The resulting dict is modelled
as an insertion-ordered association list. -/
def add_ionisation_path (kappa_hole : Int) : List (Int × IonisationPath) :=
  let possible_final_kappas := final_kappas kappa_hole false
  let reachable_final_kappas := final_kappas kappa_hole true
  possible_final_kappas.enum.filterMap (fun p =>
    if p.2 ∈ reachable_final_kappas then some (p.2, ⟨p.2, p.1⟩) else none)

lemma filter_ne_zero_three (a b c : Int) (ha : a ≠ 0) (hb : b ≠ 0) (hc : c ≠ 0) :
    [a, b, c].filter (fun x => x != 0) = [a, b, c] := by
  simp [List.filter_cons, ha, hb, hc]

lemma final_kappas_false_of_one_lt (k : Int) (hk : 0 < k) :
    final_kappas k false = [k - 1, -k, k + 1] := by
  show [Int.sign k * (|k| - 1), -Int.sign k * |k|, Int.sign k * (|k| + 1)] = _
  rw [Int.sign_eq_one_of_pos hk, abs_of_pos hk]
  simp only [List.cons.injEq, and_true]
  exact ⟨by ring, by ring, by ring⟩

lemma final_kappas_false_of_lt_neg_one (k : Int) (hk : k < 0) :
    final_kappas k false = [k + 1, -k, k - 1] := by
  show [Int.sign k * (|k| - 1), -Int.sign k * |k|, Int.sign k * (|k| + 1)] = _
  rw [Int.sign_eq_neg_one_of_neg hk, abs_of_neg hk]
  simp only [List.cons.injEq, and_true]
  exact ⟨by ring, by ring, by ring⟩

/-- C2: for every nonzero hole kappa, the unfiltered candidate list is exactly
`[s*(m-1), -s*m, s*(m+1)]` with `m = |kappa|`, `s = sign kappa`, in that
order; the reachable list is the candidate list with the zero entries
removed, order preserved; it holds between 1 and 3 pairwise-distinct nonzero
values; and the concrete instances for kappa = 1 and kappa = -1 are as the
specification states. -/
theorem final_kappas_spec (k : Int) (h : k ≠ 0) :
    final_kappas k false =
      [Int.sign k * (|k| - 1), -Int.sign k * |k|, Int.sign k * (|k| + 1)] ∧
    final_kappas k true = (final_kappas k false).filter (fun x => x != 0) ∧
    (final_kappas k true).Nodup ∧
    (∀ x ∈ final_kappas k true, x ≠ 0) ∧
    1 ≤ (final_kappas k true).length ∧ (final_kappas k true).length ≤ 3 ∧
    final_kappas 1 false = [0, -1, 2] ∧
    final_kappas 1 true = [-1, 2] ∧
    final_kappas (-1) false = [0, 1, -2] ∧
    final_kappas (-1) true = [1, -2] := by
  have hft : final_kappas k true = (final_kappas k false).filter (fun x => x != 0) :=
    rfl
  rcases lt_trichotomy k 0 with hk | hk | hk
  · rcases eq_or_lt_of_le (show k ≤ -1 by omega) with h1 | h1
    · subst h1; decide
    · have hfalse := final_kappas_false_of_lt_neg_one k hk
      have htrue : final_kappas k true = [k + 1, -k, k - 1] := by
        rw [hft, hfalse,
          filter_ne_zero_three _ _ _ (by omega) (by omega) (by omega)]
      refine ⟨rfl, rfl, ?_, ?_, ?_, ?_, by decide, by decide, by decide,
        by decide⟩
      · rw [htrue]; simp only [List.nodup_cons, List.mem_cons,
          List.mem_singleton, List.not_mem_nil, List.nodup_nil,
          not_false_eq_true, and_true, true_and, or_false]; omega
      · rw [htrue]; intro x hx
        simp only [List.mem_cons, List.mem_singleton, List.not_mem_nil,
          or_false] at hx
        omega
      · rw [htrue]; simp
      · rw [htrue]; simp
  · exact absurd hk h
  · rcases eq_or_lt_of_le (show 1 ≤ k by omega) with h1 | h1
    · rw [← h1]; decide
    · have hfalse := final_kappas_false_of_one_lt k hk
      have htrue : final_kappas k true = [k - 1, -k, k + 1] := by
        rw [hft, hfalse,
          filter_ne_zero_three _ _ _ (by omega) (by omega) (by omega)]
      refine ⟨rfl, rfl, ?_, ?_, ?_, ?_, by decide, by decide, by decide,
        by decide⟩
      · rw [htrue]; simp only [List.nodup_cons, List.mem_cons,
          List.mem_singleton, List.not_mem_nil, List.nodup_nil,
          not_false_eq_true, and_true, true_and, or_false]; omega
      · rw [htrue]; intro x hx
        simp only [List.mem_cons, List.mem_singleton, List.not_mem_nil,
          or_false] at hx
        omega
      · rw [htrue]; simp
      · rw [htrue]; simp

/-- Witness for `final_kappas_spec` at the concrete hole kappa 2. -/
theorem final_kappas_spec_witness :
    (2 : Int) ≠ 0 ∧ ∀ x ∈ final_kappas 2 true, x ≠ 0 :=
  ⟨by decide, (final_kappas_spec 2 (by decide)).2.2.2.1⟩

lemma final_kappas_true_of_one_lt (k : Int) (hk : 1 < k) :
    final_kappas k true = [k - 1, -k, k + 1] := by
  have hft : final_kappas k true = (final_kappas k false).filter (fun x => x != 0) :=
    rfl
  rw [hft, final_kappas_false_of_one_lt k (by omega),
    filter_ne_zero_three _ _ _ (by omega) (by omega) (by omega)]

lemma final_kappas_true_of_lt_neg_one (k : Int) (hk : k < -1) :
    final_kappas k true = [k + 1, -k, k - 1] := by
  have hft : final_kappas k true = (final_kappas k false).filter (fun x => x != 0) :=
    rfl
  rw [hft, final_kappas_false_of_lt_neg_one k (by omega),
    filter_ne_zero_three _ _ _ (by omega) (by omega) (by omega)]

lemma add_ionisation_path_of_one_lt (k : Int) (hk : 1 < k) :
    add_ionisation_path k =
      [(k - 1, ⟨k - 1, 0⟩), (-k, ⟨-k, 1⟩), (k + 1, ⟨k + 1, 2⟩)] := by
  simp only [add_ionisation_path, final_kappas_false_of_one_lt k (by omega),
    final_kappas_true_of_one_lt k hk]
  simp [List.enum, List.enumFrom, List.filterMap_cons, List.mem_cons]

lemma add_ionisation_path_of_lt_neg_one (k : Int) (hk : k < -1) :
    add_ionisation_path k =
      [(k + 1, ⟨k + 1, 0⟩), (-k, ⟨-k, 1⟩), (k - 1, ⟨k - 1, 2⟩)] := by
  simp only [add_ionisation_path, final_kappas_false_of_lt_neg_one k (by omega),
    final_kappas_true_of_lt_neg_one k hk]
  simp [List.enum, List.enumFrom, List.filterMap_cons, List.mem_cons]

/-- C3: column indices are positional within the full 3-slot candidate order.
For every nonzero hole kappa, the recorded column indices are `[1, 2]` when
the first candidate slot is forbidden (`|kappa| = 1`) and `[0, 1, 2]` when
all three candidates are reachable; the recorded keys are exactly the
reachable kappas in candidate order, and each recorded path stores the kappa
it is keyed by. -/
theorem ionisation_path_column_assignment (k : Int) (h : k ≠ 0) :
    ((add_ionisation_path k).map (fun e => e.2.column_index) =
      if k.natAbs = 1 then [1, 2] else [0, 1, 2]) ∧
    (add_ionisation_path k).map Prod.fst = final_kappas k true ∧
    ∀ e ∈ add_ionisation_path k, e.2.kappa = e.1 := by
  rcases lt_trichotomy k 0 with hk | hk | hk
  · rcases eq_or_lt_of_le (show k ≤ -1 by omega) with h1 | h1
    · subst h1; decide
    · have hna : ¬k.natAbs = 1 := by omega
      rw [add_ionisation_path_of_lt_neg_one k h1,
        final_kappas_true_of_lt_neg_one k h1, if_neg hna]
      refine ⟨rfl, rfl, ?_⟩
      intro e he
      simp only [List.mem_cons, List.not_mem_nil, or_false] at he
      rcases he with rfl | rfl | rfl <;> rfl
  · exact absurd hk h
  · rcases eq_or_lt_of_le (show 1 ≤ k by omega) with h1 | h1
    · rw [← h1]; decide
    · have hna : ¬k.natAbs = 1 := by omega
      rw [add_ionisation_path_of_one_lt k h1,
        final_kappas_true_of_one_lt k h1, if_neg hna]
      refine ⟨rfl, rfl, ?_⟩
      intro e he
      simp only [List.mem_cons, List.not_mem_nil, or_false] at he
      rcases he with rfl | rfl | rfl <;> rfl

/-- Witness for `ionisation_path_column_assignment` at hole kappa -1, the
forbidden-slot case: the two reachable channels keep column indices 1 and 2. -/
theorem ionisation_path_column_assignment_witness :
    (-1 : Int) ≠ 0 ∧
    (add_ionisation_path (-1)).map (fun e => e.2.column_index) =
      (if (-1 : Int).natAbs = 1 then [1, 2] else [0, 1, 2]) :=
  ⟨by decide, (ionisation_path_column_assignment (-1) (by decide)).1⟩

/-- Errors raised by `Channels` accessors: the channel-not-found assertion of
`assert_ionisation_path`, and the numpy index error raised by an out-of-range
column slice `table[:, j]`. -/
inductive ChannelsError where
  | channelNotFound (final_kappa : Int)
  | indexError
deriving DecidableEq, Repr

/-- The parsed numeric content of the five raw files passed to
`Channels.__init__` by their paths.  The external raw-data loader
(`load_raw_data` from `common_utility`) is abstracted away: each function
that reads a file in the source receives the parsed table here. -/
structure RawFiles where
  omega : List Rat
  pcur : List (List Rat)
  amp : List (List Rat)
  phaseF : List (List Rat)
  phaseG : List (List Rat)
deriving DecidableEq, Repr

/-- Mirrors the attribute state of a constructed `Channels` object.  The
`Hole` collaborator is represented by the only attribute of it this module
reads during channel resolution, its kappa. -/
structure Channels where
  hole_kappa : Int
  ionisation_paths : List (Int × IonisationPath)
  raw_omega_data : List Rat
  raw_rate_data : List (List Rat)
  raw_amp_data : List (List Rat)
  raw_phaseF_data : List (List Rat)
  raw_phaseG_data : List (List Rat)
deriving DecidableEq, Repr

/-- Mirrors `Channels.__init__`: build the ionisation-path mapping from the
hole kappa, store the omega table as is, and store each of the four data
tables with its first column (the duplicate energy index) dropped. -/
def Channels.init (hole_kappa : Int) (files : RawFiles) : Channels where
  hole_kappa := hole_kappa
  ionisation_paths := add_ionisation_path hole_kappa
  raw_omega_data := files.omega
  raw_rate_data := files.pcur.map (fun row => row.drop 1)
  raw_amp_data := files.amp.map (fun row => row.drop 1)
  raw_phaseF_data := files.phaseF.map (fun row => row.drop 1)
  raw_phaseG_data := files.phaseG.map (fun row => row.drop 1)

/-- The j-th entry of every row of a table, when every row is long enough. -/
def extractColumn (table : List (List Rat)) (column_index : Nat) :
    Option (List Rat) :=
  match table with
  | [] => some []
  | row :: rest => do
    let x ← row.get? column_index
    let xs ← extractColumn rest column_index
    pure (x :: xs)

/-- The numpy column slice `table[:, j]`: the j-th entry of every row, an
IndexError when some row is too short. -/
def getColumn (table : List (List Rat)) (column_index : Nat) :
    Except ChannelsError (List Rat) :=
  match extractColumn table column_index with
  | some column => .ok column
  | none => .error .indexError

/-- Mirrors `Channels.check_ionisation_path`. -/
def Channels.check_ionisation_path (c : Channels) (final_kappa : Int) : Bool :=
  (c.ionisation_paths.lookup final_kappa).isSome

/-- Mirrors `Channels.get_ionisation_path`: the `assert_ionisation_path`
failure becomes the channel-not-found error. -/
def Channels.get_ionisation_path (c : Channels) (final_kappa : Int) :
    Except ChannelsError IonisationPath :=
  match c.ionisation_paths.lookup final_kappa with
  | some p => .ok p
  | none => .error (.channelNotFound final_kappa)

/-- Mirrors `Channels.get_raw_omega_data`. -/
def Channels.get_raw_omega_data (c : Channels) : List Rat :=
  c.raw_omega_data

/-- Mirrors `Channels.get_all_ionisation_paths`. -/
def Channels.get_all_ionisation_paths (c : Channels) :
    List (Int × IonisationPath) :=
  c.ionisation_paths

/-- Mirrors `Channels.get_raw_amp_data`. -/
def Channels.get_raw_amp_data (c : Channels) (final_kappa : Int) :
    Except ChannelsError (List Rat) := do
  let ionisation_path ← c.get_ionisation_path final_kappa
  getColumn c.raw_amp_data ionisation_path.column_index

/-- Mirrors `Channels.get_raw_phaseF_data`. -/
def Channels.get_raw_phaseF_data (c : Channels) (final_kappa : Int) :
    Except ChannelsError (List Rat) := do
  let ionisation_path ← c.get_ionisation_path final_kappa
  getColumn c.raw_phaseF_data ionisation_path.column_index

/-- Mirrors `Channels.get_raw_phaseG_data`. -/
def Channels.get_raw_phaseG_data (c : Channels) (final_kappa : Int) :
    Except ChannelsError (List Rat) := do
  let ionisation_path ← c.get_ionisation_path final_kappa
  getColumn c.raw_phaseG_data ionisation_path.column_index

/-- Mirrors `Channels.get_raw_rate`. -/
def Channels.get_raw_rate (c : Channels) (final_kappa : Int) :
    Except ChannelsError (List Rat) := do
  let ionisation_path ← c.get_ionisation_path final_kappa
  getColumn c.raw_rate_data ionisation_path.column_index

/-- C6: every per-channel accessor fails with the channel-not-found error
exactly when the requested final kappa is absent from the ionisation-path
mapping, and for a present kappa `get_ionisation_path` returns its recorded
`IonisationPath` value. -/
theorem accessors_channel_not_found (c : Channels) (final_kappa : Int) :
    (c.ionisation_paths.lookup final_kappa = none →
      c.get_ionisation_path final_kappa = .error (.channelNotFound final_kappa) ∧
      c.get_raw_rate final_kappa = .error (.channelNotFound final_kappa) ∧
      c.get_raw_amp_data final_kappa = .error (.channelNotFound final_kappa) ∧
      c.get_raw_phaseF_data final_kappa = .error (.channelNotFound final_kappa) ∧
      c.get_raw_phaseG_data final_kappa = .error (.channelNotFound final_kappa)) ∧
    ∀ p, c.ionisation_paths.lookup final_kappa = some p →
      c.get_ionisation_path final_kappa = .ok p := by
  constructor
  · intro hnone
    have hget : c.get_ionisation_path final_kappa =
        .error (.channelNotFound final_kappa) := by
      simp [Channels.get_ionisation_path, hnone]
    refine ⟨hget, ?_, ?_, ?_, ?_⟩ <;>
      simp [Channels.get_raw_rate, Channels.get_raw_amp_data,
        Channels.get_raw_phaseF_data, Channels.get_raw_phaseG_data, hget,
        Bind.bind, Except.bind]
  · intro p hp
    simp [Channels.get_ionisation_path, hp]

/-- Witness for `accessors_channel_not_found`: for a hole with kappa 1 the
final kappa 0 is not a channel and `get_raw_amp_data 0` fails with the
channel-not-found error, while the reachable final kappa 2 resolves to its
recorded path with column index 2. -/
theorem accessors_channel_not_found_witness :
    (Channels.init 1 ⟨[], [], [], [], []⟩).get_raw_amp_data 0 =
      .error (.channelNotFound 0) ∧
    (Channels.init 1 ⟨[], [], [], [], []⟩).get_ionisation_path 2 =
      .ok ⟨2, 2⟩ :=
  ⟨((accessors_channel_not_found (Channels.init 1 ⟨[], [], [], [], []⟩) 0).1
      (by decide)).2.2.1,
   (accessors_channel_not_found (Channels.init 1 ⟨[], [], [], [], []⟩) 2).2
      ⟨2, 2⟩ (by decide)⟩

/-- C10: the out-of-domain hole kappa 0 is not rejected: the full candidate
list degenerates to `[0, 0, 0]`, the reachable list is empty, a `Channels`
built for such a hole has an empty ionisation-path mapping, and every
per-channel accessor on it fails with the channel-not-found error. -/
theorem kappa_zero_hole_degenerate :
    final_kappas 0 false = [0, 0, 0] ∧
    final_kappas 0 true = [] ∧
    add_ionisation_path 0 = [] ∧
    ∀ (files : RawFiles) (final_kappa : Int),
      (Channels.init 0 files).ionisation_paths = [] ∧
      (Channels.init 0 files).get_ionisation_path final_kappa =
        .error (.channelNotFound final_kappa) ∧
      (Channels.init 0 files).get_raw_rate final_kappa =
        .error (.channelNotFound final_kappa) ∧
      (Channels.init 0 files).get_raw_amp_data final_kappa =
        .error (.channelNotFound final_kappa) ∧
      (Channels.init 0 files).get_raw_phaseF_data final_kappa =
        .error (.channelNotFound final_kappa) ∧
      (Channels.init 0 files).get_raw_phaseG_data final_kappa =
        .error (.channelNotFound final_kappa) := by
  refine ⟨by decide, by decide, by decide, ?_⟩
  intro files final_kappa
  have hpaths : (Channels.init 0 files).ionisation_paths = [] := by
    simp [Channels.init, add_ionisation_path, final_kappas]
  have hget : (Channels.init 0 files).get_ionisation_path final_kappa =
      .error (.channelNotFound final_kappa) := by
    simp [Channels.get_ionisation_path, hpaths]
  refine ⟨hpaths, hget, ?_, ?_, ?_, ?_⟩ <;>
    simp [Channels.get_raw_rate, Channels.get_raw_amp_data,
      Channels.get_raw_phaseF_data, Channels.get_raw_phaseG_data, hget,
      Bind.bind, Except.bind]

lemma lookup_mem {β : Type} (l : List (Int × β)) (a : Int) (b : β)
    (h : l.lookup a = some b) : (a, b) ∈ l := by
  induction l with
  | nil => simp [List.lookup] at h
  | cons hd tl ih =>
    obtain ⟨k, v⟩ := hd
    simp only [List.lookup] at h
    split at h
    · next heq =>
      obtain rfl : v = b := by injection h
      obtain rfl : a = k := by exact eq_of_beq heq
      exact List.mem_cons_self _ _
    · exact List.mem_cons_of_mem _ (ih h)

lemma mem_add_ionisation_path_col_lt (kh : Int) :
    ∀ e ∈ add_ionisation_path kh, e.2.column_index < 3 := by
  rcases lt_trichotomy kh 0 with hk | hk | hk
  · rcases eq_or_lt_of_le (show kh ≤ -1 by omega) with h1 | h1
    · subst h1; decide
    · rw [add_ionisation_path_of_lt_neg_one kh h1]
      intro e he
      simp only [List.mem_cons, List.not_mem_nil, or_false] at he
      rcases he with rfl | rfl | rfl <;> norm_num
  · subst hk; decide
  · rcases eq_or_lt_of_le (show 1 ≤ kh by omega) with h1 | h1
    · rw [← h1]; decide
    · rw [add_ionisation_path_of_one_lt kh h1]
      intro e he
      simp only [List.mem_cons, List.not_mem_nil, or_false] at he
      rcases he with rfl | rfl | rfl <;> norm_num

lemma extractColumn_isSome (j : Nat) :
    ∀ (table : List (List Rat)), (∀ row ∈ table, j < row.length) →
      ∃ l, extractColumn table j = some l
  | [], _ => ⟨[], rfl⟩
  | hd :: tl, h => by
    obtain ⟨l, hl⟩ :=
      extractColumn_isSome j tl (fun r hr => h r (List.mem_cons_of_mem _ hr))
    have hj : j < hd.length := h hd (List.mem_cons_self _ _)
    exact ⟨hd.get ⟨j, hj⟩ :: l, by
      simp [extractColumn, hl, Bind.bind, Option.bind,
        List.getElem?_eq_getElem hj]⟩

lemma getColumn_ok (table : List (List Rat)) (j : Nat)
    (h : ∀ row ∈ table, j < row.length) :
    ∃ column, getColumn table j = .ok column := by
  obtain ⟨l, hl⟩ := extractColumn_isSome j table h
  exact ⟨l, by simp [getColumn, hl]⟩

/-- The raw files of a hole with kappa 1 under the stated file-format
assumption of the specification: each data file carries the energy-index
column plus one column per reachable channel, so its width is 1 + 2 = 3. -/
def filesWidthTwo : RawFiles where
  omega := [0, 1]
  pcur := [[0, 10, 20], [1, 11, 21]]
  amp := [[0, 30, 40], [1, 31, 41]]
  phaseF := [[0, 50, 60], [1, 51, 61]]
  phaseG := [[0, 70, 80], [1, 71, 81]]

/-- C5 counterexample: for the hole kappa 1 under the stated width
assumption (table width = number of reachable channels = 2) the recorded
path for final kappa 2 carries column index 2, which is not below the
width, and the per-channel rate accessor indeed indexes out of range. -/
theorem channel_width_invariant_counterexample :
    (final_kappas 1 true).length = 2 ∧
    (∀ row ∈ (Channels.init 1 filesWidthTwo).raw_rate_data,
      row.length = (final_kappas 1 true).length) ∧
    (Channels.init 1 filesWidthTwo).ionisation_paths.lookup 2 =
      some ⟨2, 2⟩ ∧
    ¬((2 : Nat) < (final_kappas 1 true).length) ∧
    (Channels.init 1 filesWidthTwo).get_raw_rate 2 = .error .indexError := by
  refine ⟨by decide, by decide, by decide, by decide, ?_⟩
  rfl

/-- C5 amended: in every constructed ionisation-path mapping each recorded
column index is below 3, the number of candidate slots; hence the accessor
column slice is in range whenever each stored table keeps a column for every
candidate slot (width at least 3), which is the column convention the source
itself documents (a forbidden channel keeps its zero column), rather than
the width-equals-reachable-count assumption. -/
theorem channel_column_index_bound (kh k : Int) (p : IonisationPath)
    (h : (add_ionisation_path kh).lookup k = some p) :
    p.column_index < 3 ∧
    ∀ table : List (List Rat), (∀ row ∈ table, 3 ≤ row.length) →
      ∃ column, getColumn table p.column_index = .ok column := by
  have hmem := lookup_mem _ _ _ h
  have hlt := mem_add_ionisation_path_col_lt kh _ hmem
  exact ⟨hlt, fun table ht =>
    getColumn_ok table _ (fun r hr => lt_of_lt_of_le hlt (ht r hr))⟩

/-- Witness for `channel_column_index_bound` at hole kappa 2, final kappa 1. -/
theorem channel_column_index_bound_witness :
    (add_ionisation_path 2).lookup 1 = some ⟨1, 0⟩ ∧
    (⟨1, 0⟩ : IonisationPath).column_index < 3 :=
  ⟨by decide, (channel_column_index_bound 2 1 ⟨1, 0⟩ (by decide)).1⟩

/-- Errors raised by `OnePhoton` registry accessors: the hole-not-loaded
assertion of `assert_hole_load` and the diagonal-data assertion of
`assert_diag_data_load`. -/
inductive OnePhotonError where
  | holeNotLoaded (atom_name : String) (n_qn : Int) (hole_kappa : Int)
  | diagNotLoaded (atom_name : String)
deriving DecidableEq, Repr

/-- Mirrors the attribute state of a `OnePhoton` object.  The channels dict
keyed by `(n_qn, hole_kappa)` is an insertion-ordered association list;
complex arrays are lists of (re, im) pairs; the diagonal arrays start as
`None`. -/
structure OnePhoton where
  atom_name : String
  g_omega_IR : Rat
  diag_eigenvalues : Option (List (Rat × Rat))
  diag_matrix_elements : Option (List (Rat × Rat))
  diag_loaded : Bool
  channels : List ((Int × Int) × Channels)
  num_channels : Nat
deriving DecidableEq, Repr

/-- Mirrors `OnePhoton.__init__`. -/
def OnePhoton.init (atom_name : String) (g_omega_IR : Rat) : OnePhoton where
  atom_name := atom_name
  g_omega_IR := g_omega_IR
  diag_eigenvalues := none
  diag_matrix_elements := none
  diag_loaded := false
  channels := []
  num_channels := 0

/-- Python dict assignment `d[key] = value` on an insertion-ordered
association list: replace the binding in place if the key is present,
append it otherwise. -/
def dictInsert {β : Type} (key : Int × Int) (value : β) :
    List ((Int × Int) × β) → List ((Int × Int) × β)
  | [] => [(key, value)]
  | (k, v) :: rest =>
    if k == key then (key, value) :: rest
    else (k, v) :: dictInsert key value rest

/-- The complex array built from the first two columns of a numeric table:
`rows[:, 0] + 1j * rows[:, 1]`, as (re, im) pairs; `none` models the numpy
IndexError when a row is too short. -/
def complexPairs (rows : List (List Rat)) : Option (List (Rat × Rat)) :=
  match rows with
  | [] => some []
  | row :: rest => do
    let re ← row.get? 0
    let im ← row.get? 1
    let others ← complexPairs rest
    pure ((re, im) :: others)

/-- The numpy slice `rows[:, -2:]`: keep only the last two entries of every
row. -/
def lastTwoColumns (rows : List (List Rat)) : List (List Rat) :=
  rows.map (fun row => row.drop (row.length - 2))

/-- Mirrors `OnePhoton.load_diag_data` together with its two private
helpers: when nothing is loaded yet or a reload is forced, store the complex
eigenvalue array built from columns 0 and 1 of the eigenvalues file and the
complex matrix-element array built from the last two columns of the
matrix-elements file, and set the loaded flag.  `none` models a numpy
failure while parsing (the claims never concern the partially-mutated state
behind a raised exception). -/
def OnePhoton.load_diag_data (op : OnePhoton)
    (eigenvalues_rows matrix_elements_rows : List (List Rat))
    (should_reload : Bool) : Option OnePhoton :=
  if !op.diag_loaded || should_reload then
    match complexPairs eigenvalues_rows,
        complexPairs (lastTwoColumns matrix_elements_rows) with
    | some eigenvalues, some matrix_elements =>
      some { op with
        diag_eigenvalues := some eigenvalues,
        diag_matrix_elements := some matrix_elements,
        diag_loaded := true }
    | _, _ => none
  else some op

/-- Mirrors `OnePhoton.is_hole_loaded`: membership of `(n_qn, hole_kappa)`
in the channels dict. -/
def OnePhoton.is_hole_loaded (op : OnePhoton) (n_qn hole_kappa : Int) : Bool :=
  (op.channels.lookup (n_qn, hole_kappa)).isSome

/-- Python truthiness of the optional binding-energy argument: `None` and a
supplied value of 0 are both falsy, so `not binding_energy` in the source is
true exactly when this returns false. -/
def pythonTruthy (binding_energy : Option Rat) : Bool :=
  match binding_energy with
  | none => false
  | some b => !(b == 0)

/-- Mirrors `OnePhoton.load_hole`.  The returned Bool records whether the
binding energy was loaded from the simulation data, i.e. whether the branch
guarded by `if not binding_energy` delegated to the external
`hole._load_binding_energy` collaborator before the `Channels` object was
constructed.  Note that the source checks loadedness as
`self.is_hole_loaded(hole_kappa, n_qn)`, passing the two arguments in the
opposite order to the signature `is_hole_loaded(self, n_qn, hole_kappa)`;
the embedding reproduces that call faithfully.  Path construction for the
five raw files and the two energy files is plumbing over the filesystem and
is abstracted into the `files` argument. -/
def OnePhoton.load_hole (op : OnePhoton) (n_qn hole_kappa : Int)
    (binding_energy : Option Rat) (files : RawFiles) (should_reload : Bool) :
    OnePhoton × Bool :=
  let is_loaded := op.is_hole_loaded hole_kappa n_qn
  if !is_loaded || should_reload then
    let binding_energy_from_data := !(pythonTruthy binding_energy)
    ({ op with
        channels :=
          dictInsert (n_qn, hole_kappa) (Channels.init hole_kappa files)
            op.channels,
        num_channels := op.num_channels + 1 },
      binding_energy_from_data)
  else (op, false)

/-- Mirrors `OnePhoton.get_channels_for_hole`: the `assert_hole_load`
failure becomes the hole-not-loaded error. -/
def OnePhoton.get_channels_for_hole (op : OnePhoton) (n_qn hole_kappa : Int) :
    Except OnePhotonError Channels :=
  match op.channels.lookup (n_qn, hole_kappa) with
  | some channels => .ok channels
  | none => .error (.holeNotLoaded op.atom_name n_qn hole_kappa)

/-- Mirrors `OnePhoton.get_channel_labels_for_hole`: after the same
hole-loaded assertion it builds one label per ionisation path, in mapping
iteration order.  The label strings are produced by external helpers from
the hole name and the path name; each is determined by the final kappa of
its path, which is what the embedding records. -/
def OnePhoton.get_channel_labels_for_hole (op : OnePhoton)
    (n_qn hole_kappa : Int) : Except OnePhotonError (List Int) :=
  match op.channels.lookup (n_qn, hole_kappa) with
  | some channels => .ok (channels.ionisation_paths.map Prod.fst)
  | none => .error (.holeNotLoaded op.atom_name n_qn hole_kappa)

/-- Mirrors `OnePhoton.get_all_channels`. -/
def OnePhoton.get_all_channels (op : OnePhoton) :
    List ((Int × Int) × Channels) :=
  op.channels

/-- Mirrors `OnePhoton.get_diag_eigenvalues`: the `assert_diag_data_load`
failure becomes the diagonal-data-not-loaded error. -/
def OnePhoton.get_diag_eigenvalues (op : OnePhoton) :
    Except OnePhotonError (Option (List (Rat × Rat))) :=
  if op.diag_loaded then .ok op.diag_eigenvalues
  else .error (.diagNotLoaded op.atom_name)

/-- Mirrors `OnePhoton.get_diag_matrix_elements`. -/
def OnePhoton.get_diag_matrix_elements (op : OnePhoton) :
    Except OnePhotonError (Option (List (Rat × Rat))) :=
  if op.diag_loaded then .ok op.diag_matrix_elements
  else .error (.diagNotLoaded op.atom_name)

/-- Raw files whose tables are all empty, for concrete registry scenarios. -/
def filesEmpty : RawFiles where
  omega := []
  pcur := []
  amp := []
  phaseF := []
  phaseG := []

/-- A second set of raw files with different content, for reload scenarios. -/
def filesAlt : RawFiles where
  omega := [5]
  pcur := [[5, 6]]
  amp := [[5, 7]]
  phaseF := [[5, 8]]
  phaseG := [[5, 9]]

/-- C1 evidence: because `load_hole` queries loadedness with the arguments
swapped (`is_hole_loaded(hole_kappa, n_qn)`), a second identical call with
`should_reload = False` for `n_qn = 2`, `hole_kappa = 1` is not a no-op:
after the first call the hole is registered under key (2, 1) and the
counter is 1, yet the second call misses that key and the counter becomes 2. -/
theorem load_hole_second_call_not_noop :
    ((OnePhoton.init "atom" 1).load_hole 2 1 none filesEmpty false).1.num_channels
      = 1 ∧
    ((OnePhoton.init "atom" 1).load_hole 2 1 none filesEmpty
      false).1.is_hole_loaded 2 1 = true ∧
    ((OnePhoton.init "atom" 1).load_hole 2 1 none filesEmpty
      false).1.is_hole_loaded 1 2 = false ∧
    (((OnePhoton.init "atom" 1).load_hole 2 1 none filesEmpty
        false).1.load_hole 2 1 none filesEmpty false).1.num_channels = 2 := by
  decide

/-- C4 evidence: reloading an already-loaded hole (here `n_qn = hole_kappa
= 1`, so the swapped loadedness check still finds the key) replaces its
channel set with one built from the freshly supplied file content, but
`num_channels` is incremented again, from 1 to 2, although no new hole was
loaded. -/
theorem load_hole_reload_replaces_and_increments :
    (((OnePhoton.init "atom" 1).load_hole 1 1 none filesEmpty
      false).1).num_channels = 1 ∧
    (((OnePhoton.init "atom" 1).load_hole 1 1 none filesEmpty
      false).1).is_hole_loaded 1 1 = true ∧
    (((OnePhoton.init "atom" 1).load_hole 1 1 none filesEmpty
      false).1).channels.lookup (1, 1) = some (Channels.init 1 filesEmpty) ∧
    ((((OnePhoton.init "atom" 1).load_hole 1 1 none filesEmpty
        false).1).load_hole 1 1 none filesAlt true).1.channels.lookup (1, 1)
      = some (Channels.init 1 filesAlt) ∧
    ((((OnePhoton.init "atom" 1).load_hole 1 1 none filesEmpty
        false).1).load_hole 1 1 none filesAlt true).1.num_channels = 2 := by
  decide

lemma lookup_dictInsert {β : Type} (key : Int × Int) (value : β) :
    ∀ d : List ((Int × Int) × β),
      (dictInsert key value d).lookup key = some value
  | [] => by simp [dictInsert, List.lookup]
  | (k, v) :: rest => by
    by_cases hk : k = key
    · subst hk
      simp [dictInsert, List.lookup]
    · have hb : (k == key) = false := by simpa using hk
      have hb2 : (key == k) = false := by simpa using Ne.symm hk
      simp [dictInsert, hb, List.lookup, hb2,
        lookup_dictInsert key value rest]

/-- C7: registry get operations fail with the matching not-loaded error
while their prerequisite load has not succeeded, and return the loaded data
afterwards: channel queries for an unregistered (n, kappa) fail with the
hole-not-loaded error and succeed on the registered channel set, diagonal
queries fail while the diagonal flag is down and succeed once
`load_diag_data` completed. -/
theorem registry_get_not_loaded (op : OnePhoton) (n_qn hole_kappa : Int) :
    (op.channels.lookup (n_qn, hole_kappa) = none →
      op.get_channels_for_hole n_qn hole_kappa =
        .error (.holeNotLoaded op.atom_name n_qn hole_kappa) ∧
      op.get_channel_labels_for_hole n_qn hole_kappa =
        .error (.holeNotLoaded op.atom_name n_qn hole_kappa)) ∧
    (op.diag_loaded = false →
      op.get_diag_eigenvalues = .error (.diagNotLoaded op.atom_name) ∧
      op.get_diag_matrix_elements = .error (.diagNotLoaded op.atom_name)) ∧
    (∀ c, op.channels.lookup (n_qn, hole_kappa) = some c →
      op.get_channels_for_hole n_qn hole_kappa = .ok c) ∧
    (∀ binding_energy files,
      ((op.load_hole n_qn hole_kappa binding_energy files
          true).1).get_channels_for_hole n_qn hole_kappa =
        .ok (Channels.init hole_kappa files)) ∧
    (∀ ev me op2, op.load_diag_data ev me true = some op2 →
      op2.get_diag_eigenvalues = .ok op2.diag_eigenvalues ∧
      op2.get_diag_matrix_elements = .ok op2.diag_matrix_elements) := by
  refine ⟨?_, ?_, ?_, ?_, ?_⟩
  · intro h
    constructor <;>
      simp [OnePhoton.get_channels_for_hole,
        OnePhoton.get_channel_labels_for_hole, h]
  · intro h
    constructor <;>
      simp [OnePhoton.get_diag_eigenvalues,
        OnePhoton.get_diag_matrix_elements, h]
  · intro c h
    simp [OnePhoton.get_channels_for_hole, h]
  · intro binding_energy files
    simp [OnePhoton.load_hole, OnePhoton.get_channels_for_hole,
      lookup_dictInsert]
  · intro ev me op2 h
    rw [OnePhoton.load_diag_data] at h
    rcases hev : complexPairs ev with _ | e <;> rw [hev] at h
    · simp at h
    · rcases hme : complexPairs (lastTwoColumns me) with _ | m <;>
        rw [hme] at h
      · simp at h
      · simp only [Bool.or_true, if_true, Option.some.injEq] at h
        subst h
        constructor <;>
          simp [OnePhoton.get_diag_eigenvalues,
            OnePhoton.get_diag_matrix_elements]

/-- Witness for `registry_get_not_loaded`: on a fresh registry every
hypothesis is discharged at concrete inputs. -/
theorem registry_get_not_loaded_witness :
    (OnePhoton.init "atom" 1).get_channels_for_hole 3 2 =
      .error (.holeNotLoaded "atom" 3 2) ∧
    (OnePhoton.init "atom" 1).get_diag_eigenvalues =
      .error (.diagNotLoaded "atom") ∧
    (((OnePhoton.init "atom" 1).load_hole 3 2 none filesAlt
        true).1).get_channels_for_hole 3 2 = .ok (Channels.init 2 filesAlt) :=
  ⟨((registry_get_not_loaded (OnePhoton.init "atom" 1) 3 2).1 (by decide)).1,
   ((registry_get_not_loaded (OnePhoton.init "atom" 1) 3 2).2.1 rfl).1,
   (registry_get_not_loaded (OnePhoton.init "atom" 1) 3 2).2.2.2.1 none
     filesAlt⟩

lemma complexPairs_first_two :
    ∀ rows : List (Rat × Rat × List Rat),
      complexPairs (rows.map (fun r => r.1 :: r.2.1 :: r.2.2)) =
        some (rows.map (fun r => (r.1, r.2.1)))
  | [] => rfl
  | r :: rest => by
    simp [complexPairs, complexPairs_first_two rest, Bind.bind, Option.bind,
      List.get?]

lemma complexPairs_pair :
    ∀ rows : List (List Rat × Rat × Rat),
      complexPairs (rows.map (fun r => [r.2.1, r.2.2])) =
        some (rows.map (fun r => (r.2.1, r.2.2)))
  | [] => rfl
  | r :: rest => by
    simp [complexPairs, complexPairs_pair rest, Bind.bind, Option.bind,
      List.get?]

lemma lastTwoColumns_map_append (rows : List (List Rat × Rat × Rat)) :
    lastTwoColumns (rows.map (fun r => r.1 ++ [r.2.1, r.2.2])) =
      rows.map (fun r => [r.2.1, r.2.2]) := by
  simp only [lastTwoColumns, List.map_map]
  refine List.map_congr_left (fun r _ => ?_)
  have hlen : (r.1 ++ [r.2.1, r.2.2]).length - 2 = r.1.length := by
    simp
  simp only [Function.comp_apply, hlen, List.drop_left]

/-- C8: after a successful first `load_diag_data`, the stored eigenvalue
array is column0 + i*column1 of the eigenvalues file elementwise in file
row order, and the stored matrix-element array is re + i*im built from
exactly the last two columns of the matrix-elements file, any leading
columns discarded, elementwise in file row order. -/
theorem diag_complex_reconstruction
    (ev_rows : List (Rat × Rat × List Rat))
    (me_rows : List (List Rat × Rat × Rat))
    (op : OnePhoton) (h : op.diag_loaded = false) :
    op.load_diag_data (ev_rows.map (fun r => r.1 :: r.2.1 :: r.2.2))
        (me_rows.map (fun r => r.1 ++ [r.2.1, r.2.2])) false =
      some { op with
        diag_eigenvalues := some (ev_rows.map (fun r => (r.1, r.2.1))),
        diag_matrix_elements := some (me_rows.map (fun r => (r.2.1, r.2.2))),
        diag_loaded := true } := by
  rw [OnePhoton.load_diag_data, complexPairs_first_two,
    lastTwoColumns_map_append, complexPairs_pair, h]
  rfl

/-- Witness for `diag_complex_reconstruction`: an eigenvalues file
`[[1, 2]]` and a matrix-elements file `[[3, 4, 5]]` load as eigenvalue
1 + 2i and matrix element 4 + 5i. -/
theorem diag_complex_reconstruction_witness :
    (OnePhoton.init "atom" 0).diag_loaded = false ∧
    (OnePhoton.init "atom" 0).load_diag_data [[1, 2]] [[3, 4, 5]] false =
      some { OnePhoton.init "atom" 0 with
        diag_eigenvalues := some [(1, 2)],
        diag_matrix_elements := some [(4, 5)],
        diag_loaded := true } :=
  ⟨rfl, diag_complex_reconstruction [(1, 2, [])] [([3], 4, 5)]
    (OnePhoton.init "atom" 0) rfl⟩

/-- C9 counterexample: supplying the binding energy 0 does not suppress the
binding-energy load from disk; `if not binding_energy` treats the supplied
0 as absent and the external loader is still invoked. -/
theorem binding_energy_zero_loads_from_data :
    ((OnePhoton.init "atom" 1).load_hole 3 1 (some 0) filesEmpty false).2 =
      true := by
  decide

/-- C9 amended: during `load_hole` the binding energy is loaded from the
simulation data exactly when a load is performed at all and the
`binding_energy` argument is falsy, i.e. not supplied or supplied as 0; for
every supplied nonzero value no binding-energy loading happens. -/
theorem binding_energy_skip_iff (op : OnePhoton) (n_qn hole_kappa : Int)
    (binding_energy : Option Rat) (files : RawFiles) (should_reload : Bool) :
    (op.load_hole n_qn hole_kappa binding_energy files should_reload).2 =
        true ↔
      ((op.is_hole_loaded hole_kappa n_qn = false ∨ should_reload = true) ∧
        (binding_energy = none ∨ binding_energy = some 0)) := by
  rw [OnePhoton.load_hole]
  by_cases hcond : (!op.is_hole_loaded hole_kappa n_qn || should_reload) = true
  · rw [if_pos hcond]
    simp only [Bool.or_eq_true, Bool.not_eq_true'] at hcond
    cases binding_energy with
    | none => simpa [pythonTruthy] using hcond
    | some b =>
      simp only [pythonTruthy, Bool.not_not, beq_iff_eq, Option.some.injEq,
        reduceCtorEq, false_or]
      constructor
      · intro hb; exact ⟨hcond, hb⟩
      · intro hb; exact hb.2
  · rw [if_neg hcond]
    simp only [Bool.or_eq_true, Bool.not_eq_true'] at hcond
    constructor
    · intro hfalse; exact absurd hfalse (by simp)
    · intro hb; exact absurd hb.1 hcond

end OnePhotonAnalysis
